import Mathlib

/-!
Verification of the billing-cycle core of the techno_server repository
(`src/app.js`). The JavaScript handlers are shallowly embedded as pure
Lean functions over record types mirroring the MongoDB documents.
Modeling conventions, used consistently below:

* Rupee amounts are modeled as `Int` (the source only adds, subtracts
  and takes `Math.max(0, _)` on them).
* A JavaScript field that may be `undefined`/`null` (or, for strings,
  the falsy `''`) is modeled as an `Option`; `Number(x || 0)` becomes
  `numOr0`, and the truthiness fallback `a || b` on such fields becomes
  `a <|> b`.
* Dates that only ever flow into the sort comparators are modeled by
  their parsed timestamps (`Int`); `parseDate` of a missing value is
  `new Date(0)`, i.e. key `0`.
-/

namespace TechnoServer

/-- One itemized payment inside a month's `paymentHistory` array. -/
structure Payment where
  amount : Int := 0
  receivedBy : Option String := none
  paymentMethod : Option String := none
deriving Repr, DecidableEq

/-- One month entry of a voucher document (`vouchers` collection),
with `date`/`createdAt` modeled as parsed timestamps and `refundDate`
as its truthiness. -/
structure MonthEntry where
  month : String
  packageFee : Option Int := none
  discount : Option Int := none
  paidAmount : Option Int := none
  remainingAmount : Option Int := none
  status : Option String := none
  paymentMethod : Option String := none
  receivedBy : Option String := none
  paymentHistory : Option (List Payment) := none
  description : Option String := none
  date : Option Int := none
  createdAt : Option Int := none
  refundDate : Bool := false
  refundedAmount : Option Int := none
deriving Repr, DecidableEq

/-- Placeholder month used for the (never-taken) out-of-bounds branch of
index lookups that the source guards by `findIndex >= 0`. -/
def dummyMonth : MonthEntry := { month := "" }

/-- JavaScript `Number(x || 0)` on an optional numeric field. -/
def numOr0 (o : Option Int) : Int := o.getD 0

/-- Reversal test `!!(m.refundDate || m.refundedAmount)` used at
src/app.js:12451, 10202 and 10375 (a `refundedAmount` of `0` is falsy). -/
def isReversed (m : MonthEntry) : Bool :=
  m.refundDate || !(numOr0 m.refundedAmount == 0)

/-- Month-entry invariant of spec §8: a non-reversed entry's
`remainingAmount` equals `max(0, packageFee - discount - paidAmount)`. -/
def monthInv (m : MonthEntry) : Bool :=
  isReversed m ||
    (numOr0 m.remainingAmount ==
      max 0 (numOr0 m.packageFee - numOr0 m.discount - numOr0 m.paidAmount))

/-- The claim's antecedent: some non-reversed month entry has status
`'unpaid'`. -/
def hasNonReversedUnpaid (months : List MonthEntry) : Bool :=
  months.any (fun m => !(isReversed m) && (m.status == some "unpaid"))

/-! ## C1: the three status recomputations -/

/-- Totals loop of `POST /api/users/:id/recalculate-status`
(src/app.js:12448-12484), months-array branch: accumulates
`(totalPaid, totalRemaining, hasUnpaidMonth)`, skipping reversed
entries; a stored `remainingAmount` is used as-is, otherwise it is
recomputed as `max(0, packageFee - discount - paidAmount)`. -/
def recalcTotals (months : List MonthEntry) : Int × Int × Bool :=
  months.foldl
    (fun acc m =>
      if isReversed m then acc
      else
        let hu := acc.2.2 || (m.status == some "unpaid")
        let paid := numOr0 m.paidAmount
        let rem :=
          match m.remainingAmount with
          | some r => r
          | none => max 0 (numOr0 m.packageFee - numOr0 m.discount - paid)
        (acc.1 + paid, acc.2.1 + rem, hu))
    (0, 0, false)

/-- Status decision of the recalculate-status endpoint
(src/app.js:12486-12496): `totalRemaining <= 0` wins over
`hasUnpaidMonth`. -/
def recalcStatus (months : List MonthEntry) : String :=
  let t := recalcTotals months
  if t.2.1 ≤ 0 then "paid"
  else if t.2.2 then "unpaid"
  else if t.1 > 0 && t.2.1 > 0 then "partial"
  else "unpaid"

/-- Non-reversed filter used by `POST /api/refunds/process-payment`
and `POST /api/vouchers/convert-to-unpaid` (src/app.js:10201-10204,
10374-10377). -/
def prNonReversed (months : List MonthEntry) : List MonthEntry :=
  months.filter (fun m => !(isReversed m))

/-- Status written by `POST /api/refunds/process-payment` after
re-paying reversed months (src/app.js:10196-10224). The code computes a
`hasUnpaidMonths` flag but never consults it: the status comes from the
paid/remaining totals alone. -/
def processReversedStatus (months : List MonthEntry) : String :=
  let nr := prNonReversed months
  let totalPaid := (nr.map (fun m => numOr0 m.paidAmount)).sum
  let totalRemaining := (nr.map (fun m => numOr0 m.remainingAmount)).sum
  if totalRemaining == 0 && totalPaid > 0 then "paid"
  else if totalPaid > 0 then "partial"
  else "unpaid"

/-- Status decision of `POST /api/vouchers/convert-to-unpaid`
(src/app.js:10374-10404), applied to the updated months array: here an
unpaid non-reversed month does dominate. -/
def convertStatus (updatedMonths : List MonthEntry) : String :=
  let nr := prNonReversed updatedMonths
  let totalPaid := (nr.map (fun m => numOr0 m.paidAmount)).sum
  let totalRemaining := (nr.map (fun m => numOr0 m.remainingAmount)).sum
  let hasUnpaidMonth := nr.any (fun m => m.status == some "unpaid")
  if hasUnpaidMonth then "unpaid"
  else if totalRemaining == 0 && totalPaid > 0 then "paid"
  else if totalPaid > 0 then "partial"
  else "unpaid"

/-- A fully paid September plus an open unpaid October. -/
def c1paidMonth : MonthEntry :=
  { month := "September 2025", packageFee := some 1500, discount := some 0,
    paidAmount := some 1500, remainingAmount := some 0, status := some "paid" }

/-- The unpaid month of the C1 counterexample. -/
def c1unpaidMonth : MonthEntry :=
  { month := "October 2025", packageFee := some 1500, discount := some 0,
    paidAmount := some 0, remainingAmount := some 1500, status := some "unpaid" }

/-! ## C2, C3, C7, C10: the voucher smart merge -/

/-- Charge-date sort key `parseDate(m.date || m.createdAt).getTime()`
used by the merge comparators (src/app.js:7889-7893, 8324-8328,
7992-7996, 8383-8387). -/
def sortKey (m : MonthEntry) : Int := (m.date <|> m.createdAt).getD 0

/-- Ascending-by-charge-date ordering between two month entries. -/
def byCharge (a b : MonthEntry) : Prop := sortKey a ≤ sortKey b

/-- Stable insertion used to model the ascending sort. -/
def insertByKey (x : MonthEntry) : List MonthEntry → List MonthEntry
  | [] => [x]
  | y :: ys => if sortKey x ≤ sortKey y then x :: y :: ys else y :: insertByKey x ys

/-- The ascending stable sort
`months.sort((a, b) => parseDate(a.date or a.createdAt) - parseDate(b.date or b.createdAt))`. -/
def sortByCharge (l : List MonthEntry) : List MonthEntry :=
  l.foldr insertByKey []

/-- In-place update of an existing month entry by an incoming month with
the same label (src/app.js:7911-7933 and 8336-8363): `packageFee` and
`discount` are preserved from the existing entry, `paidAmount` comes
from the incoming entry when defined, `remainingAmount` is recomputed,
and `paymentMethod`/`receivedBy` are overlaid from the incoming data
only when the recomputed paid amount is positive. -/
def mergeEntry (existing incoming : MonthEntry) : MonthEntry :=
  let fee := numOr0 existing.packageFee
  let disc := numOr0 existing.discount
  let paid :=
    match incoming.paidAmount with
    | some p => p
    | none => numOr0 existing.paidAmount
  let remaining := max 0 (fee - disc - paid)
  { existing with
    packageFee := some fee
    discount := some disc
    paidAmount := some paid
    remainingAmount := some remaining
    status := incoming.status <|> existing.status
    paymentMethod :=
      if paid > 0 then incoming.paymentMethod <|> existing.paymentMethod
      else existing.paymentMethod
    receivedBy :=
      if paid > 0 then incoming.receivedBy <|> existing.receivedBy
      else existing.receivedBy
    paymentHistory := incoming.paymentHistory <|> existing.paymentHistory
    description := incoming.description <|> existing.description
    date := existing.date <|> incoming.date }

/-- A new month appended by the merge when no existing month matches
(src/app.js:7935-7951 and 8364-8379); `now` models the `new Date()`
fallback for a missing `createdAt`. -/
def newMergedEntry (now : Int) (incoming : MonthEntry) : MonthEntry :=
  let fee := numOr0 incoming.packageFee
  let disc := numOr0 incoming.discount
  let paid := numOr0 incoming.paidAmount
  { incoming with
    packageFee := some fee
    discount := some disc
    paidAmount := some paid
    remainingAmount := some (max 0 (fee - disc - paid))
    createdAt := incoming.createdAt <|> some now }

/-- One iteration of the smart-merge loop: update the matching month in
place, or append the incoming month. -/
def mergeStep (now : Int) (acc : List MonthEntry) (incoming : MonthEntry) :
    List MonthEntry :=
  match acc.findIdx? (fun m => m.month == incoming.month) with
  | some i => acc.set i (mergeEntry (acc.getD i dummyMonth) incoming)
  | none => acc ++ [newMergedEntry now incoming]

/-- The smart-merge loop over the incoming months
(src/app.js:7908-7952, 8333-8380). -/
def mergeLoop (now : Int) (existing incoming : List MonthEntry) :
    List MonthEntry :=
  incoming.foldl (mergeStep now) existing

/-- Superbalance conversion applied by the `POST /api/vouchers` merge
(src/app.js:7976-7989): a month with status `'superbalance'` becomes
`'unpaid'` with `paidAmount = 0`, cleared `paymentHistory`, and
`remainingAmount = packageFee - (discount || 0)` with no clamping (an
absent `packageFee`, NaN in JavaScript, is modeled as 0). -/
def convertSuper (m : MonthEntry) : MonthEntry :=
  if m.status == some "superbalance" then
    { m with
      status := some "unpaid"
      paidAmount := some 0
      remainingAmount := some (numOr0 m.packageFee - numOr0 m.discount)
      paymentHistory := some [] }
  else m

/-- Months array stored by the `POST /api/vouchers` smart-merge branch
(src/app.js:7889-8009): sort the incoming months, merge them into the
existing ones, convert superbalance months, and sort the final list. -/
def postMergeMonths (now : Int) (existing incoming : List MonthEntry) :
    List MonthEntry :=
  sortByCharge ((mergeLoop now existing (sortByCharge incoming)).map convertSuper)

/-- Months array stored by the `PUT /api/vouchers/:id` merge branch
(src/app.js:8324-8387): the same merge without any superbalance
conversion. -/
def putMergeMonths (now : Int) (existing incoming : List MonthEntry) :
    List MonthEntry :=
  sortByCharge (mergeLoop now existing (sortByCharge incoming))

/-- Month conversion of `POST /api/vouchers/convert-to-unpaid`
(src/app.js:10299-10363): payment fields cleared, `remainingAmount` set
to the unclamped `packageFee - discount` (the optional new values
override the stored ones), and the month marked with a `refundDate` and
`refundedAmount`, which makes it reversed for every later filter. -/
def convertMonthEntry (m : MonthEntry) (newFee newDisc : Option Int) :
    MonthEntry :=
  let fee := match newFee with | some f => f | none => numOr0 m.packageFee
  let disc := match newDisc with | some d => d | none => numOr0 m.discount
  { m with
    status := some "unpaid"
    packageFee := some fee
    discount := some disc
    paidAmount := some 0
    remainingAmount := some (fee - disc)
    paymentMethod := none
    receivedBy := none
    paymentHistory := some []
    refundDate := true
    refundedAmount := some (numOr0 m.paidAmount) }

/-- Updated months array written by `convert-to-unpaid`
(src/app.js:10350-10369). -/
def convertToUnpaidMonths (months : List MonthEntry) (i : Nat)
    (newFee newDisc : Option Int) : List MonthEntry :=
  months.set i (convertMonthEntry (months.getD i dummyMonth) newFee newDisc)

/-- An existing superbalance month whose discount exceeds its package
fee; its conversion produces a negative remaining amount. -/
def c2superMonth : MonthEntry :=
  { month := "May 2025", packageFee := some 100, discount := some 200,
    paidAmount := some 0, remainingAmount := some 0,
    status := some "superbalance", date := some 100 }

/-- A fresh incoming month for the C2 counterexample merge. -/
def c2freshMonth : MonthEntry :=
  { month := "June 2025", packageFee := some 100, discount := some 0,
    paidAmount := some 0, status := some "unpaid", date := some 200 }

/-- Existing month of the C3 counterexample: a partial cash payment. -/
def c3existingMonth : MonthEntry :=
  { month := "January 2025", packageFee := some 100, discount := some 0,
    paidAmount := some 50, remainingAmount := some 50,
    status := some "partial", paymentMethod := some "Cash",
    receivedBy := some "Bob", date := some 10 }

/-- Incoming month of the C3 counterexample: explicit `paidAmount: 0`
with a new payment method and receiver. -/
def c3incomingMonth : MonthEntry :=
  { month := "January 2025", paidAmount := some 0,
    paymentMethod := some "Bank Transfer", receivedBy := some "Ali",
    status := some "unpaid", date := some 10 }

/-! ## C4, C5, C9: the rollover scheduler -/

/-- A civil calendar day with the JavaScript 0-based month. -/
structure Ymd where
  y : Int
  m : Int
  d : Int
deriving Repr, DecidableEq

/-- Gregorian leap-year rule as implemented by JavaScript dates. -/
def isLeap (y : Int) : Bool := (y % 4 == 0 && y % 100 != 0) || (y % 400 == 0)

/-- Days in the given 0-based month. -/
def daysInMonth (y m : Int) : Int :=
  if m == 1 then (if isLeap y then 29 else 28)
  else if m == 3 || m == 5 || m == 8 || m == 10 then 30
  else 31

/-- JavaScript Date day-overflow normalization: a day count exceeding
the month length rolls into the following months (fuel-bounded). -/
def normDay : Nat → Int → Int → Int → Ymd
  | 0, y, m, d => ⟨y, m, d⟩
  | fuel + 1, y, m, d =>
    if d > daysInMonth y m then
      if m == 11 then normDay fuel (y + 1) 0 (d - daysInMonth y m)
      else normDay fuel y (m + 1) (d - daysInMonth y m)
    else ⟨y, m, d⟩

/-- The scheduler's expiry advance
`nextExpiryDate.setMonth(getMonth() + 1)` (src/app.js:8771-8772):
month index plus one with JavaScript day normalization, so e.g.
31 January rolls to 3 March. -/
def addOneMonth (e : Ymd) : Ymd :=
  let m2 := e.m + 1
  if m2 > 11 then normDay 64 (e.y + 1) (m2 - 12) e.d else normDay 64 e.y m2 e.d

/-- English long month name used for the voucher label
(`toLocaleDateString('en-US', { month: 'long', year: 'numeric' })`,
src/app.js:8768). -/
def monthLongName (m : Int) : String :=
  if m == 0 then "January" else if m == 1 then "February"
  else if m == 2 then "March" else if m == 3 then "April"
  else if m == 4 then "May" else if m == 5 then "June"
  else if m == 6 then "July" else if m == 7 then "August"
  else if m == 8 then "September" else if m == 9 then "October"
  else if m == 10 then "November" else "December"

/-- Voucher month label, e.g. `"November 2025"`. -/
def monthNameOf (e : Ymd) : String := monthLongName e.m ++ " " ++ toString e.y

/-- Calendar-day comparison `isDateLTE` of the scheduler
(src/app.js:8732-8737). -/
def isDateLTE (a b : Ymd) : Bool :=
  if a.y < b.y then true
  else if a.y == b.y && a.m < b.m then true
  else if a.y == b.y && a.m == b.m && a.d ≤ b.d then true
  else false

/-- A stored expiry value: either a `DD-MM-YYYY` text or a Date object
(both occur in the `users` collection; `parseExpiryYMD` at
src/app.js:8709-8729 handles both, the per-user `parseDate` at
src/app.js:8752-8761 only strings). -/
inductive EDate where
  | txt : Ymd → EDate
  | obj : Ymd → EDate
deriving Repr, DecidableEq

/-- The scheduler's selection parse `parseExpiryYMD`
(src/app.js:8709-8729): for both representations it yields the stored
calendar day (UTC midnight plus the PKT offset stays on the same day). -/
def parseExpiryYMD : Option EDate → Option Ymd
  | some (EDate.txt e) => some e
  | some (EDate.obj e) => some e
  | none => none

/-- The per-user `parseDate` of the rollover loop (src/app.js:8752-8761)
calls `dateStr.split`, which succeeds on strings but raises a TypeError
on Date objects. -/
def loopParseDate : Option EDate → Except String Ymd
  | some (EDate.txt e) => Except.ok e
  | some (EDate.obj _) =>
      Except.error "TypeError: dateStr.split is not a function"
  | none => Except.error "TypeError: dateStr is not a string"

/-- A subscriber document (`users` collection), restricted to the fields
the billing core reads. -/
structure Subscriber where
  status : String
  serviceStatus : Option String := none
  expiryDate : Option EDate := none
  amount : Option Int := none
  discount : Option Int := none
  showInExpiringSoon : Bool := false
  unpaidSince : Option Int := none
deriving Repr, DecidableEq

/-- A voucher document, restricted to the fields the scheduler touches. -/
structure Voucher where
  months : List MonthEntry := []
  expiryDate : Option Ymd := none
deriving Repr, DecidableEq

/-- A subscriber together with its (at most one) voucher. -/
structure Account where
  user : Subscriber
  voucher : Option Voucher := none
deriving Repr, DecidableEq

/-- Placeholder account for out-of-range list lookups in statements. -/
def dummyAccount : Account := { user := { status := "" } }

/-- Phase B selection (src/app.js:8697-8742): status in the five-value
list, service status not `'inactive'`, and expiry on or before today. -/
def phaseBSelected (today : Ymd) (u : Subscriber) : Bool :=
  (u.status == "paid" || u.status == "partial" || u.status == "unpaid" ||
   u.status == "pending" || u.status == "superbalance") &&
  !(u.serviceStatus == some "inactive") &&
  (match parseExpiryYMD u.expiryDate with
   | some e => isDateLTE e today
   | none => false)

/-- Monotone stand-in timestamp for `currentExpiryDate.toISOString()`
(src/app.js:8818), injective and increasing in calendar order for the
in-range days the scheduler produces. -/
def ymdKey (e : Ymd) : Int := (e.y * 12 + e.m) * 32 + e.d

/-- The unpaid month entry the rollover appends for the just-ended cycle
(src/app.js:8803-8820). -/
def rolloverMonthEntry (now : Int) (e : Ymd) (u : Subscriber) : MonthEntry :=
  let fee := numOr0 u.amount
  let disc := numOr0 u.discount
  { month := monthNameOf e
    packageFee := some fee
    discount := some disc
    paidAmount := some 0
    remainingAmount := some (max 0 (fee - disc))
    paymentMethod := some "Pending"
    receivedBy := none
    status := some "unpaid"
    description := some (monthNameOf e ++ " - Pending Payment")
    date := some (ymdKey e)
    createdAt := some now }

/-- Per-user body of `moveTodayExpiredToUnpaid` (src/app.js:8748-8860):
parse the expiry (which throws on Date-typed values), move the user to
unpaid with the advanced expiry date, and append the month entry for the
current expiry month unless its label already exists. -/
def processExpiredUser (now : Int) (a : Account) : Except String Account := do
  let e ← loopParseDate a.user.expiryDate
  let label := monthNameOf e
  let next := addOneMonth e
  let u2 : Subscriber :=
    { a.user with
      status := "unpaid"
      expiryDate := some (EDate.txt next)
      showInExpiringSoon := false
      unpaidSince := some now }
  let nm := rolloverMonthEntry now e a.user
  let v2 : Voucher :=
    match a.voucher with
    | some v =>
      if v.months.any (fun m => m.month == label) then v
      else { v with months := v.months ++ [nm], expiryDate := some next }
    | none => { months := [nm], expiryDate := some next }
  pure { user := u2, voucher := some v2 }

/-- One account's fate in a Phase B run: unselected accounts are left
untouched, selected ones are processed (possibly with an error). -/
def accountStep (now : Int) (today : Ymd) (a : Account) :
    Except String Account :=
  if phaseBSelected today a.user then processExpiredUser now a
  else Except.ok a

/-- Result of a successful step, for stating the batch theorem. -/
def accountStepD (now : Int) (today : Ymd) (a : Account) : Account :=
  ((accountStep now today a).toOption).getD a

/-- The Phase B loop under its single function-level try/catch
(src/app.js:8670, 8748-8860, 8882-8884): the first per-user error stops
the loop, earlier users keep their committed updates, later users are
left untouched, and the error is logged once by the outer catch (the
function still returns normally). -/
def phaseBLoop (now : Int) (today : Ymd) :
    List Account → List Account × Option String
  | [] => ([], none)
  | a :: rest =>
    match accountStep now today a with
    | Except.ok a2 =>
      let r := phaseBLoop now today rest
      (a2 :: r.1, r.2)
    | Except.error msg => (a :: rest, some msg)

/-- `moveTodayExpiredToUnpaid` (src/app.js:8669-8885): a run before
noon PKT is skipped entirely (src/app.js:8687-8693); otherwise the
selected users are processed in order. -/
def moveTodayExpiredToUnpaid (now hour : Int) (today : Ymd)
    (accounts : List Account) : List Account × Option String :=
  if hour < 12 then (accounts, none) else phaseBLoop now today accounts

/-- The single account produced by a Phase B run over a one-account
batch, for stating per-subscriber properties. -/
def runOne (now hour : Int) (today : Ymd) (a : Account) : Account :=
  (moveTodayExpiredToUnpaid now hour today [a]).1.headD a

/-- Number of month entries carrying the given label. -/
def labelCount (label : String) (v : Option Voucher) : Nat :=
  match v with
  | some w => (w.months.filter (fun m => m.month == label)).length
  | none => 0

/-- C4 counterexample account: an active subscriber whose status is
`'reversed'` (reachable via `PUT /api/vouchers/:id` with every month
reversed, src/app.js:8276-8277) and whose expiry is today. -/
def c4reversedAccount : Account :=
  { user :=
      { status := "reversed"
        serviceStatus := some "active"
        expiryDate := some (EDate.txt ⟨2025, 9, 12⟩)
        amount := some 1500
        discount := some 0 }
    voucher := some { months := [] } }

/-- Today for the C4/C5 counterexamples: 12 October 2025. -/
def cToday : Ymd := ⟨2025, 9, 12⟩

/-- C5 counterexample account: an active unpaid subscriber whose expiry
(15 January 2025) lies more than one month in the past. -/
def c5account : Account :=
  { user :=
      { status := "unpaid"
        serviceStatus := some "active"
        expiryDate := some (EDate.txt ⟨2025, 0, 15⟩)
        amount := some 1000
        discount := some 0 }
    voucher := some { months := [] } }

/-- C9 counterexample batch: three expired active subscribers, the
middle one with a Date-typed `expiryDate` that makes the loop's
`parseDate` throw. -/
def c9goodAccount1 : Account :=
  { user :=
      { status := "paid"
        serviceStatus := some "active"
        expiryDate := some (EDate.txt ⟨2025, 9, 12⟩)
        amount := some 1000
        discount := some 0 }
    voucher := some { months := [] } }

/-- The failing middle account of the C9 batch. -/
def c9badAccount : Account :=
  { user :=
      { status := "paid"
        serviceStatus := some "active"
        expiryDate := some (EDate.obj ⟨2025, 9, 10⟩)
        amount := some 1000
        discount := some 0 }
    voucher := some { months := [] } }

/-- The third account of the C9 batch, never reached by the aborted
loop. -/
def c9goodAccount2 : Account :=
  { user :=
      { status := "paid"
        serviceStatus := some "active"
        expiryDate := some (EDate.txt ⟨2025, 9, 11⟩)
        amount := some 1000
        discount := some 0 }
    voucher := some { months := [] } }

/-! ## C6: subscriber creation -/

/-- The creation-request fields that determine the initial payment
status (`POST /api/users`, src/app.js:3447-3465). -/
structure CreateUserReq where
  status : Option String := none
  paymentType : Option String := none
  numberOfMonths : Option Int := none
  amount : Option Int := none
  discount : Option Int := none
  expiryDate : Option Ymd := none
deriving Repr, DecidableEq

/-- The payment fields of the created subscriber document. -/
structure CreateOutcome where
  status : String
  paidAmount : Int
  remainingAmount : Int
deriving Repr, DecidableEq

/-- JavaScript `numberOfMonths || 1` (`0` is falsy). -/
def jsOr1 (o : Option Int) : Int :=
  match o with
  | some n => if n == 0 then 1 else n
  | none => 1

/-- JavaScript `numberOfMonths > 1` (false for `undefined`). -/
def jsGT1 (o : Option Int) : Bool :=
  match o with
  | some n => n > 1
  | none => false

/-- Payment-status determination of `POST /api/users`
(src/app.js:3474-3547): explicit `'pending'` wins; `paymentType 'now'`
gives `'paid'` for a single month and `'partial'` for a multi-month
prepay with one month's discounted fee recorded as paid; `paymentType
'later'` gives `'unpaid'`; the expiry date is never consulted. -/
def determineCreateStatus (req : CreateUserReq) : CreateOutcome :=
  let fee := numOr0 req.amount
  let disc := numOr0 req.discount
  let monthly := fee - disc
  let total := monthly * jsOr1 req.numberOfMonths
  if req.status == some "pending" then
    { status := "pending", paidAmount := 0, remainingAmount := total }
  else if req.paymentType == some "now" then
    { status := if jsGT1 req.numberOfMonths then "partial" else "paid"
      paidAmount := monthly
      remainingAmount := total - monthly }
  else if req.paymentType == some "later" then
    { status := "unpaid", paidAmount := 0, remainingAmount := total }
  else
    { status := "unpaid", paidAmount := 0, remainingAmount := total }

/-! ## C7, C8: the income ledger -/

/-- A per-receiver income record (`incomes` collection). -/
structure IncomeRec where
  name : String
  cashIncome : Int := 0
  bankIncome : Int := 0
deriving Repr, DecidableEq

/-- `updateOne` semantics on the modeled collection: the first matching
record is rewritten, the rest are untouched. -/
def updateFirst (p : IncomeRec → Bool) (f : IncomeRec → IncomeRec) :
    List IncomeRec → List IncomeRec
  | [] => []
  | r :: rs => if p r then f r :: rs else r :: updateFirst p f rs

/-- Character-list prefix test used to model substring containment. -/
def prefChars : List Char → List Char → Bool
  | [], _ => true
  | _ :: _, [] => false
  | a :: as, b :: bs => a == b && prefChars as bs

/-- Character-list substring containment. -/
def hasSub (sub : List Char) : List Char → Bool
  | [] => prefChars sub []
  | c :: cs => prefChars sub (c :: cs) || hasSub sub cs

/-- JavaScript `s.includes(sub)`. -/
def jsIncludes (sub s : String) : Bool := hasSub sub.data s.data

/-- JavaScript `toLowerCase()` on the ASCII method and name strings the
handlers compare (character-wise lowering). -/
def lowerStr (s : String) : String := String.mk (s.data.map Char.toLower)

/-- JavaScript `trim()` (ASCII-space trimming suffices for the modeled
names). -/
def trimStr (s : String) : String :=
  String.mk
    (((s.data.dropWhile (fun c => c == ' ')).reverse.dropWhile
        (fun c => c == ' ')).reverse)

/-- Case-insensitive anchored-regex name match used by the deletion and
transfer updates (`new RegExp('^...$', 'i')` on the escaped trimmed
receiver). -/
def ciMatch (recName receiver : String) : Bool :=
  lowerStr recName == lowerStr (trimStr receiver)

/-- Income deduction of `convert-to-unpaid` (src/app.js:10313-10347):
only when an amount was paid and a receiver is recorded; the bucket is
chosen by whether the method mentions `bank`; the new value is clamped
at zero; a missing income record skips the deduction. -/
def convertDebit (incomes : List IncomeRec) (receivedBy : String)
    (refunded : Int) (method : String) : List IncomeRec :=
  if refunded > 0 && !(receivedBy == "") then
    let isBank := jsIncludes "bank" (lowerStr method)
    if incomes.any (fun r => r.name == receivedBy) then
      updateFirst (fun r => r.name == receivedBy)
        (fun r =>
          if isBank then { r with bankIncome := max 0 (r.bankIncome - refunded) }
          else { r with cashIncome := max 0 (r.cashIncome - refunded) })
        incomes
    else incomes
  else incomes

/-- Per-receiver income deduction of `DELETE /api/users/:id`
(src/app.js:4002-4036): both buckets decremented with a floor of zero;
a missing record skips the deduction. -/
def deletionDebitOne (incomes : List IncomeRec) (receiver : String)
    (cashDed bankDed : Int) : List IncomeRec :=
  if cashDed > 0 || bankDed > 0 then
    if incomes.any (fun r => ciMatch r.name receiver) then
      updateFirst (fun r => ciMatch r.name receiver)
        (fun r =>
          { r with
            cashIncome := max 0 (r.cashIncome - cashDed)
            bankIncome := max 0 (r.bankIncome - bankDed) })
        incomes
    else incomes
  else incomes

/-- The deletion's walk over all accumulated deductions
(src/app.js:4003-4036). -/
def deletionDebit (incomes : List IncomeRec)
    (deds : List (String × Int × Int)) : List IncomeRec :=
  deds.foldl (fun acc d => deletionDebitOne acc d.1 d.2.1 d.2.2) incomes

/-- Cash credit with upsert used by the merge income update
(src/app.js:8040-8048): `$inc cashIncome` on the exact receiver name,
creating the record when absent. -/
def creditCash (incomes : List IncomeRec) (receiver : String)
    (amount : Int) : List IncomeRec :=
  if incomes.any (fun r => r.name == receiver) then
    updateFirst (fun r => r.name == receiver)
      (fun r => { r with cashIncome := r.cashIncome + amount }) incomes
  else incomes ++ [{ name := receiver, cashIncome := amount, bankIncome := 0 }]

/-- Credit for one itemized payment (src/app.js:8035-8051): receiver
defaults to `Admin`; only positive amounts are credited, always to
`cashIncome`. -/
def creditPayment (incomes : List IncomeRec) (p : Payment) :
    List IncomeRec :=
  let receiver := p.receivedBy.getD "Admin"
  if p.amount > 0 then creditCash incomes receiver p.amount else incomes

/-- Income credit for one incoming month of the `POST /api/vouchers`
merge (src/app.js:8028-8071): only paid/partial months; itemized
payments when a nonempty history exists, else the old single
`receivedBy`/`paidAmount` pair; every credit goes to `cashIncome`. -/
def creditMonth (incomes : List IncomeRec) (m : MonthEntry) :
    List IncomeRec :=
  if m.status == some "paid" || m.status == some "partial" then
    match m.paymentHistory with
    | some (p :: ps) => (p :: ps).foldl creditPayment incomes
    | _ =>
      match m.receivedBy with
      | some recv =>
        if numOr0 m.paidAmount > 0 then creditCash incomes recv (numOr0 m.paidAmount)
        else incomes
      | none => incomes
  else incomes

/-- Joint months/incomes state of one subscriber's ledger. -/
structure LedgerState where
  months : List MonthEntry
  incomes : List IncomeRec
deriving Repr, DecidableEq

/-- Core of `POST /api/vouchers/convert-to-unpaid`
(src/app.js:10260-10369): a missing month label is a 404; otherwise the
original receiver is debited (clamped) and the month is converted. -/
def convertToUnpaidOp (st : LedgerState) (label : String)
    (newFee newDisc : Option Int) : Option LedgerState :=
  match st.months.findIdx? (fun m => m.month == label) with
  | none => none
  | some i =>
    let mo := st.months.getD i dummyMonth
    let refunded := numOr0 mo.paidAmount
    let recv := mo.receivedBy.getD ""
    let meth := mo.paymentMethod.getD "Cash"
    some
      { months := convertToUnpaidMonths st.months i newFee newDisc
        incomes := convertDebit st.incomes recv refunded meth }

/-- Observable effect of the `POST /api/vouchers` smart merge on the
months and incomes when no superbalance month is present
(src/app.js:7889-8071): the stored months are `postMergeMonths` and the
incoming (sorted) months' payments are credited. -/
def postMergeOp (now : Int) (st : LedgerState)
    (incoming : List MonthEntry) : LedgerState :=
  { months := postMergeMonths now st.months incoming
    incomes := (sortByCharge incoming).foldl creditMonth st.incomes }

/-- Full `POST /api/vouchers` merge branch as executed, returning the
persisted ledger, the subscriber status, and the error if any: when any
merged month has status `'superbalance'`, the handler persists the
converted months (src/app.js:7999-8009) and then evaluates
`updatedMonths.reduce(...)` (src/app.js:8014) — but `updatedMonths` is
only declared inside the separate convert-to-unpaid handler
(src/app.js:10350), so a ReferenceError is thrown before the user status
update and the income credits, and the request fails with a 500. -/
def postVouchersHandler (now : Int) (st : LedgerState) (userStatus : String)
    (incoming : List MonthEntry) : LedgerState × String × Option String :=
  let sortedIncoming := sortByCharge incoming
  let merged := mergeLoop now st.months sortedIncoming
  let hasSuper := merged.any (fun m => m.status == some "superbalance")
  let months2 := sortByCharge (merged.map convertSuper)
  if hasSuper then
    ({ months := months2, incomes := st.incomes }, userStatus,
      some "ReferenceError: updatedMonths is not defined")
  else
    ({ months := months2, incomes := sortedIncoming.foldl creditMonth st.incomes },
      userStatus, none)

/-- Guarded transfer `POST /api/collections/transfer`
(src/app.js:11097-11281): the availability check reads the exact-name
record's `cashIncome`, falling back to the voucher-recalculated figure
(abstracted as `voucherIncome`) when that is zero; the debit itself is
an unclamped `$inc` on the case-insensitive match — and when no record
matches, a record with a negative balance is created; Admin's cash is
credited by the same amount. `none` models a rejected request. -/
def transferOp (incomes : List IncomeRec) (voucherIncome : Int)
    (feeCollector : String) (amount : Int) : Option (List IncomeRec) :=
  if amount ≤ 0 then none
  else
    let found := incomes.find? (fun r => r.name == trimStr feeCollector)
    let cur0 := numOr0 (found.map (fun r => r.cashIncome))
    let cur := if cur0 == 0 then voucherIncome else cur0
    if cur < amount then none
    else
      let afterDebit :=
        if incomes.any (fun r => ciMatch r.name feeCollector) then
          updateFirst (fun r => ciMatch r.name feeCollector)
            (fun r => { r with cashIncome := r.cashIncome - amount }) incomes
        else incomes ++ [{ name := trimStr feeCollector, cashIncome := -amount, bankIncome := 0 }]
      let afterAdmin :=
        if afterDebit.any (fun r => ciMatch r.name "Admin") then
          updateFirst (fun r => ciMatch r.name "Admin")
            (fun r => { r with cashIncome := r.cashIncome + amount }) afterDebit
        else afterDebit ++ [{ name := "Admin", cashIncome := amount, bankIncome := 0 }]
      some afterAdmin

/-- C7 counterexample month: May 2025 fully paid in cash to Ali. -/
def c7paidMonth : MonthEntry :=
  { month := "May 2025", packageFee := some 1500, discount := some 0,
    paidAmount := some 1500, remainingAmount := some 0,
    status := some "paid", paymentMethod := some "Cash",
    receivedBy := some "Ali",
    paymentHistory := some [{ amount := 1500, receivedBy := some "Ali",
                              paymentMethod := some "Cash" }],
    date := some 50 }

/-- C7 counterexample incoming month: the full re-payment of May 2025. -/
def c7repayMonth : MonthEntry :=
  { month := "May 2025", paidAmount := some 1500, status := some "paid",
    paymentMethod := some "Cash", receivedBy := some "Ali",
    paymentHistory := some [{ amount := 1500, receivedBy := some "Ali",
                              paymentMethod := some "Cash" }],
    date := some 50 }

/-- C10 failing input: an existing voucher holding a superbalance month
(stored as-is by the no-existing-voucher branch, src/app.js:8078-8089). -/
def c10superMonth : MonthEntry :=
  { month := "May 2025", packageFee := some 1500, discount := some 0,
    paidAmount := some 0, remainingAmount := some 0,
    status := some "superbalance", date := some 100 }

/-- The incoming month of the C10 failing merge request. -/
def c10incomingMonth : MonthEntry :=
  { month := "June 2025", packageFee := some 1500, discount := some 0,
    paidAmount := some 0, status := some "unpaid", date := some 200 }

/-! ## Theorems -/

/-- The `hasUnpaidMonth` component of the recalc accumulator agrees with
`hasNonReversedUnpaid`. -/
theorem recalcTotals_hasUnpaid (months : List MonthEntry) :
    (recalcTotals months).2.2 = hasNonReversedUnpaid months := by
  suffices h : ∀ init : Int × Int × Bool,
      (months.foldl
        (fun acc m =>
          if isReversed m then acc
          else
            let hu := acc.2.2 || (m.status == some "unpaid")
            let paid := numOr0 m.paidAmount
            let rem :=
              match m.remainingAmount with
              | some r => r
              | none => max 0 (numOr0 m.packageFee - numOr0 m.discount - paid)
            (acc.1 + paid, acc.2.1 + rem, hu)) init).2.2
        = (init.2.2 || hasNonReversedUnpaid months) by
    have := h (0, 0, false)
    simpa [recalcTotals] using this
  induction months with
  | nil => intro init; simp [hasNonReversedUnpaid]
  | cons m ms ih =>
    intro init
    by_cases hrev : isReversed m
    · simp [List.foldl_cons, hrev, ih, hasNonReversedUnpaid]
    · simp only [List.foldl_cons, hrev, if_false, ih, hasNonReversedUnpaid,
        List.any_cons, Bool.not_eq_true] at *
      simp [hrev, Bool.or_assoc]

/-- The unpaid-month test of `convert-to-unpaid` agrees with
`hasNonReversedUnpaid`. -/
theorem convert_hasUnpaid (months : List MonthEntry) :
    ((prNonReversed months).any (fun m => m.status == some "unpaid"))
      = hasNonReversedUnpaid months := by
  induction months with
  | nil => rfl
  | cons m ms ih =>
    by_cases h : isReversed m <;>
      simp [prNonReversed, hasNonReversedUnpaid, List.filter_cons, h] at *

/-- C1 counterexample: `POST /api/refunds/process-payment` derives the
subscriber status from the paid/remaining totals alone, so a voucher
with a fully paid month (paid 1500) and a non-reversed `'unpaid'` month
(remaining 1500) is stored as `'partial'`, not `'unpaid'` as the claim
requires. -/
theorem claim_C1_counterexample :
    hasNonReversedUnpaid [c1paidMonth, c1unpaidMonth] = true ∧
    processReversedStatus [c1paidMonth, c1unpaidMonth] = "partial" := by
  constructor <;> decide

/-- C1 (amended): after `convert-to-unpaid`, a non-reversed `'unpaid'`
month always forces subscriber status `'unpaid'`; the recalculate-status
endpoint does so whenever its computed total remaining is positive
(a total remaining of zero or less yields `'paid'` even with an unpaid
month); the reversed-payment processor ignores unpaid months entirely. -/
theorem claim_C1 : ∀ months : List MonthEntry,
    hasNonReversedUnpaid months = true →
    (0 < (recalcTotals months).2.1 → recalcStatus months = "unpaid") ∧
    convertStatus months = "unpaid" := by
  intro months h
  constructor
  · intro hpos
    have hu : (recalcTotals months).2.2 = true := by
      rw [recalcTotals_hasUnpaid]; exact h
    unfold recalcStatus
    have hnle : ¬ (recalcTotals months).2.1 ≤ 0 := by omega
    simp [hnle, hu]
  · unfold convertStatus
    simp [convert_hasUnpaid, h]

/-- Witness for C1 at a one-month voucher whose only month is unpaid. -/
theorem claim_C1_witness :
    recalcStatus [c1unpaidMonth] = "unpaid" ∧
    convertStatus [c1unpaidMonth] = "unpaid" :=
  ⟨(claim_C1 [c1unpaidMonth] (by decide)).1 (by decide),
   (claim_C1 [c1unpaidMonth] (by decide)).2⟩

/-- Membership in an insertion step comes from the inserted element or
the original list. -/
theorem mem_insertByKey {z x : MonthEntry} :
    ∀ {l : List MonthEntry}, z ∈ insertByKey x l → z = x ∨ z ∈ l := by
  intro l
  induction l with
  | nil =>
    intro h
    simp only [insertByKey, List.mem_singleton] at h
    exact Or.inl h
  | cons y ys ih =>
    intro h
    rw [insertByKey] at h
    by_cases hc : sortKey x ≤ sortKey y
    · rw [if_pos hc] at h
      rcases List.mem_cons.1 h with h1 | h1
      · exact Or.inl h1
      · exact Or.inr h1
    · rw [if_neg hc] at h
      rcases List.mem_cons.1 h with h1 | h1
      · exact Or.inr (List.mem_cons.2 (Or.inl h1))
      · rcases ih h1 with h2 | h2
        · exact Or.inl h2
        · exact Or.inr (List.mem_cons.2 (Or.inr h2))

/-- Inserting into a sorted list keeps it sorted. -/
theorem sorted_insertByKey (x : MonthEntry) {l : List MonthEntry}
    (h : l.Pairwise byCharge) : (insertByKey x l).Pairwise byCharge := by
  induction l with
  | nil => simp [insertByKey]
  | cons y ys ih =>
    rcases List.pairwise_cons.1 h with ⟨hy, hys⟩
    rw [insertByKey]
    by_cases hc : sortKey x ≤ sortKey y
    · rw [if_pos hc]
      refine List.pairwise_cons.2 ⟨?_, h⟩
      intro z hz
      rcases List.mem_cons.1 hz with rfl | hz
      · exact hc
      · exact le_trans hc (hy z hz)
    · rw [if_neg hc]
      refine List.pairwise_cons.2 ⟨?_, ih hys⟩
      intro z hz
      rcases mem_insertByKey hz with rfl | hz
      · exact le_of_not_le hc
      · exact hy z hz

/-- The modeled sort returns a list sorted ascending by charge date. -/
theorem sorted_sortByCharge (l : List MonthEntry) :
    (sortByCharge l).Pairwise byCharge := by
  induction l with
  | nil => simp [sortByCharge]
  | cons x xs ih =>
    rw [sortByCharge, List.foldr_cons]
    exact sorted_insertByKey x ih

/-- Sorting does not invent entries. -/
theorem mem_sortByCharge {z : MonthEntry} :
    ∀ {l : List MonthEntry}, z ∈ sortByCharge l → z ∈ l := by
  intro l
  induction l with
  | nil => intro h; simp [sortByCharge] at h
  | cons x xs ih =>
    intro h
    rw [sortByCharge, List.foldr_cons] at h
    rcases mem_insertByKey h with rfl | h1
    · exact List.mem_cons.2 (Or.inl rfl)
    · exact List.mem_cons.2 (Or.inr (ih h1))

/-- A merged (matched) entry always satisfies the month invariant. -/
theorem monthInv_mergeEntry (e i : MonthEntry) :
    monthInv (mergeEntry e i) = true := by
  simp [mergeEntry, monthInv, numOr0, isReversed]

/-- An appended entry always satisfies the month invariant. -/
theorem monthInv_newMergedEntry (now : Int) (i : MonthEntry) :
    monthInv (newMergedEntry now i) = true := by
  simp [newMergedEntry, monthInv, numOr0, isReversed]

/-- A convert-to-unpaid result is reversed, hence vacuously satisfies
the non-reversed invariant. -/
theorem monthInv_convertMonthEntry (m : MonthEntry)
    (newFee newDisc : Option Int) :
    monthInv (convertMonthEntry m newFee newDisc) = true := by
  simp [convertMonthEntry, monthInv, isReversed]

/-- Superbalance conversion keeps the invariant exactly when the
month's discount does not exceed its package fee. -/
theorem monthInv_convertSuper {m : MonthEntry} (hinv : monthInv m = true)
    (hsup : m.status = some "superbalance" →
      numOr0 m.discount ≤ numOr0 m.packageFee) :
    monthInv (convertSuper m) = true := by
  by_cases h : m.status == some "superbalance"
  · have hst : m.status = some "superbalance" := by simpa using h
    have hd := hsup hst
    have hmax : max 0 (numOr0 m.packageFee - numOr0 m.discount - 0)
        = numOr0 m.packageFee - numOr0 m.discount := by omega
    simp [convertSuper, h, monthInv, numOr0, isReversed, hmax]
    exact Or.inr hd
  · simpa [convertSuper, h] using hinv

/-- One merge step preserves the all-months invariant. -/
theorem mergeStep_inv (now : Int) {acc : List MonthEntry} (inc : MonthEntry)
    (h : ∀ m ∈ acc, monthInv m = true) :
    ∀ m ∈ mergeStep now acc inc, monthInv m = true := by
  intro m hm
  simp only [mergeStep] at hm
  rcases hidx : acc.findIdx? (fun mo => mo.month == inc.month) with _ | i
  · rw [hidx] at hm
    rcases List.mem_append.1 hm with h1 | h2
    · exact h m h1
    · rw [List.mem_singleton] at h2
      subst h2
      exact monthInv_newMergedEntry _ _
  · rw [hidx] at hm
    rcases List.mem_or_eq_of_mem_set hm with h1 | h1
    · exact h m h1
    · subst h1
      exact monthInv_mergeEntry _ _

/-- The whole merge loop preserves the all-months invariant. -/
theorem mergeLoop_inv (now : Int) (incoming : List MonthEntry) :
    ∀ existing : List MonthEntry, (∀ m ∈ existing, monthInv m = true) →
      ∀ m ∈ mergeLoop now existing incoming, monthInv m = true := by
  induction incoming with
  | nil =>
    intro ex h m hm
    rw [mergeLoop, List.foldl_nil] at hm
    exact h m hm
  | cons i is ih =>
    intro ex h m hm
    rw [mergeLoop, List.foldl_cons] at hm
    exact ih (mergeStep now ex i) (mergeStep_inv now i h) m hm

/-- C2 counterexample: merging any request into a voucher holding a
superbalance month with `discount > packageFee` stores a non-reversed
month whose `remainingAmount` is negative (here `-100`), so the claimed
invariant `remainingAmount == max(0, fee - discount - paid)` fails. -/
theorem claim_C2_counterexample :
    (postMergeMonths 0 [c2superMonth] [c2freshMonth]).all monthInv = false ∧
    (postMergeMonths 0 [c2superMonth] [c2freshMonth]).any
      (fun m => !(isReversed m) && decide (numOr0 m.remainingAmount < 0))
      = true := by
  constructor <;> decide

/-- C2 (amended): merge-updated and merge-appended entries and the
rollover-created entry always satisfy
`remainingAmount == max(0, packageFee - discount - paidAmount)`, and
`convert-to-unpaid` preserves the invariant for non-reversed entries
(its own modified entry becomes reversed); the superbalance conversion
of the `POST /api/vouchers` merge sets the unclamped
`packageFee - discount` and therefore keeps the invariant only when
each converted month's discount does not exceed its package fee. -/
theorem claim_C2 :
    (∀ now : Int, ∀ existing incoming : List MonthEntry,
      (∀ m ∈ existing, monthInv m = true) →
      (∀ m ∈ mergeLoop now existing (sortByCharge incoming),
        m.status = some "superbalance" →
          numOr0 m.discount ≤ numOr0 m.packageFee) →
      ∀ m ∈ postMergeMonths now existing incoming, monthInv m = true) ∧
    (∀ now : Int, ∀ e : Ymd, ∀ u : Subscriber,
      monthInv (rolloverMonthEntry now e u) = true) ∧
    (∀ months : List MonthEntry, ∀ i : Nat, ∀ newFee newDisc : Option Int,
      (∀ m ∈ months, monthInv m = true) →
      ∀ m ∈ convertToUnpaidMonths months i newFee newDisc,
        monthInv m = true) ∧
    (∀ now : Int, ∀ existing incoming : List MonthEntry,
      (∀ m ∈ existing, monthInv m = true) →
      ∀ m ∈ putMergeMonths now existing incoming, monthInv m = true) := by
  refine ⟨?_, ?_, ?_, ?_⟩
  · intro now ex inc hex hsup m hm
    have hm2 := mem_sortByCharge hm
    rcases List.mem_map.1 hm2 with ⟨m0, hm0, rfl⟩
    exact monthInv_convertSuper
      (mergeLoop_inv now (sortByCharge inc) ex hex m0 hm0) (hsup m0 hm0)
  · intro now e u
    simp [rolloverMonthEntry, monthInv, numOr0, isReversed]
  · intro months i nf nd h m hm
    simp only [convertToUnpaidMonths] at hm
    rcases List.mem_or_eq_of_mem_set hm with h1 | h1
    · exact h m h1
    · subst h1
      exact monthInv_convertMonthEntry _ _ _
  · intro now ex inc hex m hm
    exact mergeLoop_inv now (sortByCharge inc) ex hex m (mem_sortByCharge hm)

/-- Witness for C2 on a concrete merge of a fresh June month into a
voucher holding a well-formed paid September month. -/
theorem claim_C2_witness :
    (postMergeMonths 0 [c1paidMonth] [c2freshMonth]).all monthInv = true := by
  rw [List.all_eq_true]
  intro m hm
  exact claim_C2.1 0 [c1paidMonth] [c2freshMonth] (by decide) (by decide) m hm

/-- The incoming-or-existing paid amount of a matched merge. -/
theorem mergeEntry_paid (e i : MonthEntry) :
    (match i.paidAmount with
     | some p => p
     | none => numOr0 e.paidAmount) = i.paidAmount.getD (numOr0 e.paidAmount) := by
  cases i.paidAmount <;> rfl

/-- C3 counterexample: the merged January entry keeps the existing
`paymentMethod`/`receivedBy` (`Cash`/`Bob`) although the incoming data
carries `Bank Transfer`/`Ali`, because the incoming values are overlaid
only when the recomputed paid amount is positive and here the incoming
`paidAmount` is `0`. -/
theorem claim_C3_counterexample :
    c3incomingMonth.paymentMethod = some "Bank Transfer" ∧
    c3incomingMonth.receivedBy = some "Ali" ∧
    ((putMergeMonths 0 [c3existingMonth] [c3incomingMonth]).getD 0
        dummyMonth).paymentMethod = some "Cash" ∧
    ((putMergeMonths 0 [c3existingMonth] [c3incomingMonth]).getD 0
        dummyMonth).receivedBy = some "Bob" := by
  refine ⟨rfl, rfl, ?_, ?_⟩ <;> decide

/-- C3 (amended): on a label match the merge updates the entry in place
keeping the existing `packageFee`/`discount`, takes `paidAmount`,
`status` and `paymentHistory` from the incoming data with fallback to
the existing values, recomputes
`remainingAmount = max(0, packageFee - discount - paidAmount)`, but
overlay of `paymentMethod`/`receivedBy` from the incoming data happens
only when the recomputed paid amount is positive (otherwise the
existing values are kept); an unmatched incoming month is appended; the
final months list of both merge endpoints is sorted ascending by charge
date. -/
theorem claim_C3 :
    (∀ now : Int, ∀ acc : List MonthEntry, ∀ inc : MonthEntry, ∀ i : Nat,
      acc.findIdx? (fun m => m.month == inc.month) = some i →
      mergeStep now acc inc
        = acc.set i (mergeEntry (acc.getD i dummyMonth) inc)) ∧
    (∀ now : Int, ∀ acc : List MonthEntry, ∀ inc : MonthEntry,
      acc.findIdx? (fun m => m.month == inc.month) = none →
      mergeStep now acc inc = acc ++ [newMergedEntry now inc]) ∧
    (∀ e inc : MonthEntry,
      (mergeEntry e inc).packageFee = some (numOr0 e.packageFee) ∧
      (mergeEntry e inc).discount = some (numOr0 e.discount) ∧
      (mergeEntry e inc).paidAmount
        = some (inc.paidAmount.getD (numOr0 e.paidAmount)) ∧
      (mergeEntry e inc).remainingAmount
        = some (max 0 (numOr0 e.packageFee - numOr0 e.discount -
            inc.paidAmount.getD (numOr0 e.paidAmount))) ∧
      (mergeEntry e inc).status = (inc.status <|> e.status) ∧
      (mergeEntry e inc).paymentHistory
        = (inc.paymentHistory <|> e.paymentHistory) ∧
      (0 < inc.paidAmount.getD (numOr0 e.paidAmount) →
        (mergeEntry e inc).paymentMethod
            = (inc.paymentMethod <|> e.paymentMethod) ∧
        (mergeEntry e inc).receivedBy = (inc.receivedBy <|> e.receivedBy)) ∧
      (inc.paidAmount.getD (numOr0 e.paidAmount) ≤ 0 →
        (mergeEntry e inc).paymentMethod = e.paymentMethod ∧
        (mergeEntry e inc).receivedBy = e.receivedBy)) ∧
    (∀ now : Int, ∀ existing incoming : List MonthEntry,
      (putMergeMonths now existing incoming).Pairwise byCharge ∧
      (postMergeMonths now existing incoming).Pairwise byCharge) := by
  refine ⟨?_, ?_, ?_, ?_⟩
  · intro now acc inc i h
    simp only [mergeStep, h]
  · intro now acc inc h
    simp only [mergeStep, h]
  · intro e inc
    refine ⟨?_, ?_, ?_, ?_, ?_, ?_, ?_, ?_⟩ <;>
      simp only [mergeEntry, mergeEntry_paid]
    · intro hpos
      refine ⟨?_, ?_⟩ <;> rw [if_pos hpos]
    · intro hnp
      refine ⟨?_, ?_⟩ <;>
        rw [if_neg (show ¬ inc.paidAmount.getD (numOr0 e.paidAmount) > 0 by omega)]
  · intro now ex inc
    exact ⟨sorted_sortByCharge _, sorted_sortByCharge _⟩

/-- Witness for C3 on the matched-label case at index 0. -/
theorem claim_C3_witness :
    mergeStep 0 [c3existingMonth] c3incomingMonth
      = [c3existingMonth].set 0
          (mergeEntry ([c3existingMonth].getD 0 dummyMonth) c3incomingMonth) :=
  claim_C3.1 0 [c3existingMonth] c3incomingMonth 0 (by decide)

/-- Evaluation of the per-user rollover body on a string-typed expiry
date. -/
theorem processExpiredUser_txt (now : Int) (a : Account) (e : Ymd)
    (hexp : a.user.expiryDate = some (EDate.txt e)) :
    processExpiredUser now a = Except.ok
      { user :=
          { a.user with
            status := "unpaid"
            expiryDate := some (EDate.txt (addOneMonth e))
            showInExpiringSoon := false
            unpaidSince := some now }
        voucher := some
          (match a.voucher with
           | some v =>
             if v.months.any (fun m => m.month == monthNameOf e) then v
             else
               { v with
                 months := v.months ++ [rolloverMonthEntry now e a.user]
                 expiryDate := some (addOneMonth e) }
           | none =>
             { months := [rolloverMonthEntry now e a.user]
               expiryDate := some (addOneMonth e) }) } := by
  simp [processExpiredUser, hexp, loopParseDate]

/-- Selection succeeds for an eligible subscriber with a string expiry
on or before today. -/
theorem phaseBSelected_true {today : Ymd} {u : Subscriber} {e : Ymd}
    (hst : u.status = "paid" ∨ u.status = "partial" ∨ u.status = "unpaid" ∨
      u.status = "pending" ∨ u.status = "superbalance")
    (hsv : u.serviceStatus ≠ some "inactive")
    (hexp : u.expiryDate = some (EDate.txt e))
    (hlte : isDateLTE e today = true) :
    phaseBSelected today u = true := by
  unfold phaseBSelected
  rw [hexp]
  simp only [parseExpiryYMD, hlte, Bool.and_true, Bool.and_eq_true,
    Bool.or_eq_true, beq_iff_eq, Bool.not_eq_true', beq_eq_false_iff_ne]
  exact ⟨by tauto, hsv⟩

/-- A one-account Phase B run at or after noon that processes its
account successfully. -/
theorem run_processed {now hour : Int} {today : Ymd} {a a2 : Account}
    (hh : 12 ≤ hour) (hsel : phaseBSelected today a.user = true)
    (hproc : processExpiredUser now a = Except.ok a2) :
    moveTodayExpiredToUnpaid now hour today [a] = ([a2], none) := by
  unfold moveTodayExpiredToUnpaid
  rw [if_neg (by omega)]
  unfold phaseBLoop accountStep
  rw [if_pos hsel, hproc]
  rfl

/-- C4 counterexample: an active subscriber (service status `'active'`)
whose payment status is `'reversed'` — reachable via
`PUT /api/vouchers/:id` when every month is reversed
(src/app.js:8276-8277) — with expiry exactly today is skipped entirely
by Phase B: the run leaves the account unchanged instead of moving it to
`'unpaid'` as the claim requires. -/
theorem claim_C4_counterexample :
    c4reversedAccount.user.serviceStatus = some "active" ∧
    parseExpiryYMD c4reversedAccount.user.expiryDate = some cToday ∧
    moveTodayExpiredToUnpaid 1000 12 cToday [c4reversedAccount]
      = ([c4reversedAccount], none) ∧
    c4reversedAccount.user.status = "reversed" := by
  refine ⟨rfl, rfl, by decide, rfl⟩

/-- C4 (amended): for every subscriber with service status not
`'inactive'` and payment status among
`paid/partial/unpaid/pending/superbalance` (the run skips other
statuses such as `'reversed'`) whose string `expiryDate` is on or before
today, a Phase B run at or after noon sets status `'unpaid'`, clears
`showInExpiringSoon`, stamps `unpaidSince`, advances `expiryDate` by one
JavaScript calendar month, and, if the voucher lacks a month labeled
with the pre-advance expiry month, appends exactly one new unpaid month
entry with `packageFee = amount`, `discount = discount`,
`paidAmount = 0` and `remainingAmount = max(0, fee - discount)`. -/
theorem claim_C4 :
    ∀ now hour : Int, ∀ today : Ymd, ∀ a : Account, ∀ e : Ymd, ∀ v : Voucher,
    12 ≤ hour →
    (a.user.status = "paid" ∨ a.user.status = "partial" ∨
      a.user.status = "unpaid" ∨ a.user.status = "pending" ∨
      a.user.status = "superbalance") →
    a.user.serviceStatus ≠ some "inactive" →
    a.user.expiryDate = some (EDate.txt e) →
    isDateLTE e today = true →
    a.voucher = some v →
    (moveTodayExpiredToUnpaid now hour today [a]).2 = none ∧
    (runOne now hour today a).user.status = "unpaid" ∧
    (runOne now hour today a).user.showInExpiringSoon = false ∧
    (runOne now hour today a).user.unpaidSince = some now ∧
    (runOne now hour today a).user.expiryDate
      = some (EDate.txt (addOneMonth e)) ∧
    (v.months.any (fun m => m.month == monthNameOf e) = false →
      (runOne now hour today a).voucher
        = some { v with
                 months := v.months ++ [rolloverMonthEntry now e a.user]
                 expiryDate := some (addOneMonth e) } ∧
      labelCount (monthNameOf e) ((runOne now hour today a).voucher)
        = labelCount (monthNameOf e) a.voucher + 1 ∧
      (rolloverMonthEntry now e a.user).packageFee
        = some (numOr0 a.user.amount) ∧
      (rolloverMonthEntry now e a.user).discount
        = some (numOr0 a.user.discount) ∧
      (rolloverMonthEntry now e a.user).paidAmount = some 0 ∧
      (rolloverMonthEntry now e a.user).remainingAmount
        = some (max 0 (numOr0 a.user.amount - numOr0 a.user.discount)) ∧
      (rolloverMonthEntry now e a.user).status = some "unpaid") := by
  intro now hour today a e v hh hst hsv hexp hlte hv
  have hrun := run_processed hh (phaseBSelected_true hst hsv hexp hlte)
    (processExpiredUser_txt now a e hexp)
  have hone : runOne now hour today a =
      { user :=
          { a.user with
            status := "unpaid"
            expiryDate := some (EDate.txt (addOneMonth e))
            showInExpiringSoon := false
            unpaidSince := some now }
        voucher := some
          (if v.months.any (fun m => m.month == monthNameOf e) then v
           else
             { v with
               months := v.months ++ [rolloverMonthEntry now e a.user]
               expiryDate := some (addOneMonth e) }) } := by
    rw [runOne, hrun]
    simp [hv]
  refine ⟨by rw [hrun], by rw [hone], by rw [hone], by rw [hone],
    by rw [hone], ?_⟩
  intro hno
  rw [hone, hv]
  refine ⟨by simp [hno], ?_, rfl, rfl, rfl, rfl, rfl⟩
  have hzero : (v.months.filter (fun m => m.month == monthNameOf e)) = [] := by
    rw [List.filter_eq_nil_iff]
    intro m hm
    have := List.any_eq_false.1 hno m hm
    simpa using this
  simp [labelCount, hno, List.filter_append, hzero, rolloverMonthEntry]

/-- Witness for C4: a paid active subscriber expiring today is rolled
over. -/
theorem claim_C4_witness :
    (moveTodayExpiredToUnpaid 1000 12 cToday [c9goodAccount1]).2 = none ∧
    (runOne 1000 12 cToday c9goodAccount1).user.status = "unpaid" :=
  ⟨(claim_C4 1000 12 cToday c9goodAccount1 ⟨2025, 9, 12⟩ { months := [] }
      (by norm_num) (Or.inl rfl) (by decide) rfl (by decide) rfl).1,
   (claim_C4 1000 12 cToday c9goodAccount1 ⟨2025, 9, 12⟩ { months := [] }
      (by norm_num) (Or.inl rfl) (by decide) rfl (by decide) rfl).2.1⟩

/-- C5 counterexample: today is 12 October 2025 and the subscriber's
expiry is 15 January 2025 (more than one month past). The first noon
run advances the expiry only to 15 February 2025, which is still in the
past, so the second run on the same day processes the subscriber again:
it is not a no-op and a second month entry is created. -/
theorem claim_C5_counterexample :
    (moveTodayExpiredToUnpaid 2 12 cToday
        (moveTodayExpiredToUnpaid 1 12 cToday [c5account]).1).1
      ≠ (moveTodayExpiredToUnpaid 1 12 cToday [c5account]).1 ∧
    (labelCount "January 2025"
        ((runOne 1 12 cToday c5account).voucher) = 1) ∧
    (match (moveTodayExpiredToUnpaid 2 12 cToday
        (moveTodayExpiredToUnpaid 1 12 cToday [c5account]).1).1 with
     | [a2] => (match a2.voucher with
                | some v => v.months.length
                | none => 0)
     | _ => 0) = 2 := by
  refine ⟨by decide, by decide, by decide⟩

/-- C5 (amended): running Phase B twice on the same civil day is
idempotent for a subscriber whose advanced expiry date falls after
today — in particular whenever the expiry is today's date: the first
run creates exactly one month entry for the closed cycle and the second
run leaves the processed account unchanged. When the expiry lies more
than one calendar month in the past, the catch-up behavior instead
processes the subscriber again on the second run. -/
theorem claim_C5 :
    ∀ now1 now2 hour1 hour2 : Int, ∀ today : Ymd, ∀ a : Account,
      ∀ e : Ymd, ∀ v : Voucher,
    12 ≤ hour1 →
    (a.user.status = "paid" ∨ a.user.status = "partial" ∨
      a.user.status = "unpaid" ∨ a.user.status = "pending" ∨
      a.user.status = "superbalance") →
    a.user.serviceStatus ≠ some "inactive" →
    a.user.expiryDate = some (EDate.txt e) →
    isDateLTE e today = true →
    a.voucher = some v →
    v.months.any (fun m => m.month == monthNameOf e) = false →
    isDateLTE (addOneMonth e) today = false →
    labelCount (monthNameOf e) ((runOne now1 hour1 today a).voucher) = 1 ∧
    moveTodayExpiredToUnpaid now2 hour2 today
        [runOne now1 hour1 today a]
      = ([runOne now1 hour1 today a], none) := by
  intro now1 now2 hour1 hour2 today a e v hh hst hsv hexp hlte hv hno hfut
  have hrun := run_processed hh (phaseBSelected_true hst hsv hexp hlte)
    (processExpiredUser_txt now1 a e hexp)
  have hone : runOne now1 hour1 today a =
      { user :=
          { a.user with
            status := "unpaid"
            expiryDate := some (EDate.txt (addOneMonth e))
            showInExpiringSoon := false
            unpaidSince := some now1 }
        voucher := some
          { v with
            months := v.months ++ [rolloverMonthEntry now1 e a.user]
            expiryDate := some (addOneMonth e) } } := by
    rw [runOne, hrun]
    simp [hv, hno]
  constructor
  · have hzero : (v.months.filter (fun m => m.month == monthNameOf e)) = [] := by
      rw [List.filter_eq_nil_iff]
      intro m hm
      have := List.any_eq_false.1 hno m hm
      simpa using this
    rw [hone]
    simp [labelCount, List.filter_append, hzero, rolloverMonthEntry]
  · have hnosel : phaseBSelected today (runOne now1 hour1 today a).user
        = false := by
      rw [hone]
      simp [phaseBSelected, parseExpiryYMD, hfut]
    unfold moveTodayExpiredToUnpaid
    by_cases hhr : hour2 < 12
    · rw [if_pos hhr]
    · rw [if_neg hhr]
      unfold phaseBLoop accountStep
      rw [if_neg (by simp [hnosel])]
      rfl

/-- Witness for C5: an unpaid subscriber expiring exactly today. -/
theorem claim_C5_witness :
    labelCount "October 2025" ((runOne 1 12 cToday c9goodAccount1).voucher)
        = 1 ∧
    moveTodayExpiredToUnpaid 2 12 cToday [runOne 1 12 cToday c9goodAccount1]
      = ([runOne 1 12 cToday c9goodAccount1], none) := by
  have h := claim_C5 1 2 12 12 cToday c9goodAccount1 ⟨2025, 9, 12⟩
    { months := [] } (by norm_num) (Or.inl rfl) (by decide) rfl (by decide)
    rfl (by decide) (by decide)
  exact ⟨by simpa using h.1, h.2⟩

/-- C6 (confirmed): an explicit `'pending'` request yields status
`'pending'`; otherwise `paymentType 'now'` yields `'paid'` for
`numberOfMonths = 1` and `'partial'` for more than one month, recording
one month's discounted fee as paid; otherwise `paymentType 'later'`
yields `'unpaid'`; and the outcome never depends on the expiry date. -/
theorem claim_C6 : ∀ req : CreateUserReq,
    (req.status = some "pending" →
      (determineCreateStatus req).status = "pending") ∧
    (req.status ≠ some "pending" → req.paymentType = some "now" →
      (req.numberOfMonths = some 1 →
        (determineCreateStatus req).status = "paid") ∧
      ((∃ n : Int, req.numberOfMonths = some n ∧ 1 < n) →
        (determineCreateStatus req).status = "partial") ∧
      (determineCreateStatus req).paidAmount
        = numOr0 req.amount - numOr0 req.discount) ∧
    (req.status ≠ some "pending" → req.paymentType = some "later" →
      (determineCreateStatus req).status = "unpaid") ∧
    (∀ e1 e2 : Option Ymd,
      determineCreateStatus { req with expiryDate := e1 }
        = determineCreateStatus { req with expiryDate := e2 }) := by
  intro req
  refine ⟨?_, ?_, ?_, ?_⟩
  · intro h
    simp [determineCreateStatus, h]
  · intro hnp hnow
    have hb : (req.status == some "pending") = false := by
      simpa using hnp
    refine ⟨?_, ?_, ?_⟩
    · intro h1
      simp [determineCreateStatus, hb, hnow, jsGT1, h1]
    · rintro ⟨n, hn, hgt⟩
      simp [determineCreateStatus, hb, hnow, jsGT1, hn, hgt]
    · simp [determineCreateStatus, hb, hnow]
  · intro hnp hlater
    have hb : (req.status == some "pending") = false := by
      simpa using hnp
    have hb2 : (req.paymentType == some "now") = false := by
      simp [hlater]
    simp [determineCreateStatus, hb, hb2, hlater]
  · intro e1 e2
    cases req
    rfl

/-- Witness for C6: pay-later creation with a far-future expiry date is
stored `'unpaid'`. -/
theorem claim_C6_witness :
    (determineCreateStatus
      { status := none, paymentType := some "later",
        numberOfMonths := some 1, amount := some 1500, discount := some 0,
        expiryDate := some ⟨2026, 5, 1⟩ }).status = "unpaid" :=
  (claim_C6 _).2.2.1 (by decide) rfl

/-- Evaluation of `convert-to-unpaid` on a one-month voucher and a
one-record income ledger, when the receiver's cash bucket covers the
reversed amount: the month is converted and exactly the paid amount is
deducted. -/
theorem convertToUnpaidOp_eval (m0 : MonthEntry) (rec : IncomeRec)
    (p : Int) (r meth : String)
    (hp0 : m0.paidAmount = some p) (hp : 0 < p)
    (hrecv : m0.receivedBy = some r) (hrne : (r == "") = false)
    (hmeth : m0.paymentMethod = some meth)
    (hcash : jsIncludes "bank" (lowerStr meth) = false)
    (hrn : rec.name = r) (hc : p ≤ rec.cashIncome) :
    convertToUnpaidOp { months := [m0], incomes := [rec] } m0.month none none
      = some { months := [convertMonthEntry m0 none none]
               incomes := [{ rec with cashIncome := rec.cashIncome - p }] } := by
  have hmax : max 0 (rec.cashIncome - p) = rec.cashIncome - p := by omega
  unfold convertToUnpaidOp
  rw [List.findIdx?_cons]
  simp only [beq_self_eq_true, if_true, List.getD_cons_zero,
    convertToUnpaidMonths, List.set_cons_zero, convertDebit, numOr0,
    hp0, hrecv, hmeth, Option.getD_some, hrne, hcash, hrn, hp,
    decide_eq_true_eq, Bool.not_false, Bool.and_true, beq_self_eq_true,
    List.any_cons, List.any_nil, Bool.or_false, if_true, updateFirst,
    if_false, Bool.false_eq_true, hmax]

/-- Evaluation of the merge-based re-payment of a previously converted
month on a one-month voucher and one-record income ledger. -/
theorem postMergeOp_repay (m0 inc : MonthEntry) (rec : IncomeRec)
    (now p f dc : Int) (r meth : String)
    (hf : m0.packageFee = some f) (hdc : m0.discount = some dc)
    (hfull : p = f - dc) (hp : 0 < p)
    (hilabel : inc.month = m0.month) (hipaid : inc.paidAmount = some p)
    (hist : inc.status = some "paid")
    (hihist : inc.paymentHistory
      = some [{ amount := p, receivedBy := some r, paymentMethod := some meth }])
    (hrn : rec.name = r) :
    ((postMergeOp now
        { months := [convertMonthEntry m0 none none]
          incomes := [{ rec with cashIncome := rec.cashIncome - p }] }
        [inc]).months.getD 0 dummyMonth).remainingAmount = some 0 ∧
    (postMergeOp now
        { months := [convertMonthEntry m0 none none]
          incomes := [{ rec with cashIncome := rec.cashIncome - p }] }
        [inc]).incomes = [rec] := by
  have hsort : sortByCharge [inc] = [inc] := rfl
  have hcm : (convertMonthEntry m0 none none).month = m0.month := rfl
  have hidx : [convertMonthEntry m0 none none].findIdx?
      (fun m => m.month == inc.month) = some 0 := by
    rw [List.findIdx?_cons]
    simp [hcm, hilabel]
  have hmerge : mergeLoop now [convertMonthEntry m0 none none] [inc]
      = [mergeEntry (convertMonthEntry m0 none none) inc] := by
    unfold mergeLoop
    rw [List.foldl_cons, List.foldl_nil]
    unfold mergeStep
    rw [hidx]
    rfl
  have hstat : (mergeEntry (convertMonthEntry m0 none none) inc).status
      = some "paid" := by
    simp [mergeEntry, hist]
  have hsuper : convertSuper (mergeEntry (convertMonthEntry m0 none none) inc)
      = mergeEntry (convertMonthEntry m0 none none) inc := by
    unfold convertSuper
    rw [hstat]
    rfl
  constructor
  · unfold postMergeOp postMergeMonths
    rw [hsort, hmerge]
    simp only [List.map_cons, List.map_nil, hsuper]
    rw [show sortByCharge [mergeEntry (convertMonthEntry m0 none none) inc]
        = [mergeEntry (convertMonthEntry m0 none none) inc] from rfl]
    simp only [List.getD_cons_zero]
    simp [mergeEntry, convertMonthEntry, numOr0, hf, hdc, hipaid]
    omega
  · unfold postMergeOp
    rw [hsort]
    simp only [List.foldl_cons, List.foldl_nil]
    unfold creditMonth
    rw [hist, hihist]
    simp only [beq_self_eq_true, Bool.true_or, if_true]
    unfold creditPayment creditCash
    have hpred : (({ rec with cashIncome := rec.cashIncome - p } :
        IncomeRec).name == r) = true := by
      simp [hrn]
    simp only [List.foldl_cons, List.foldl_nil, Option.getD_some, hp,
      decide_eq_true_eq, if_true, List.any_cons, List.any_nil, hpred,
      Bool.or_false, updateFirst]
    have heq : ({ rec with cashIncome := rec.cashIncome - p + p } :
        IncomeRec) = rec := by
      have hsum : rec.cashIncome - p + p = rec.cashIncome := by omega
      rw [hsum]
    simp [hp, heq]

/-- C7 counterexample: a month of 1500 fully paid in cash to Ali whose
income record stands at 0. The reversal's deduction is clamped at zero
(nothing is deducted), yet the re-payment credits the full 1500, so the
receiver's income ends 1500 above its starting point instead of the
claimed net-zero round trip. -/
theorem claim_C7_counterexample :
    (convertToUnpaidOp
        { months := [c7paidMonth]
          incomes := [{ name := "Ali", cashIncome := 0, bankIncome := 0 }] }
        "May 2025" none none).map (fun st => st.incomes)
      = some [{ name := "Ali", cashIncome := 0, bankIncome := 0 }] ∧
    (convertToUnpaidOp
        { months := [c7paidMonth]
          incomes := [{ name := "Ali", cashIncome := 0, bankIncome := 0 }] }
        "May 2025" none none).map
        (fun st => (postMergeOp 0 st [c7repayMonth]).incomes)
      = some [{ name := "Ali", cashIncome := 1500, bankIncome := 0 }] := by
  constructor <;> decide

/-- C7 (amended): for a fully paid non-reversed month (paid amount
`p = packageFee - discount > 0`, remaining 0) whose receiver has an
income record covering `p` in the debited (cash) bucket,
`convert-to-unpaid` deducts exactly `p` and the merge re-payment of the
same month restores `remainingAmount` to its pre-reversal value 0 and
restores the receiver's income record exactly (net zero). Without the
coverage hypothesis the deduction is clamped at zero while the re-credit
is not, and the round trip inflates the receiver's income. -/
theorem claim_C7 :
    ∀ (m0 inc : MonthEntry) (rec : IncomeRec) (now p f dc : Int)
      (r meth : String),
    m0.packageFee = some f →
    m0.discount = some dc →
    m0.paidAmount = some p →
    m0.remainingAmount = some 0 →
    p = f - dc →
    0 < p →
    m0.receivedBy = some r →
    (r == "") = false →
    m0.paymentMethod = some meth →
    jsIncludes "bank" (lowerStr meth) = false →
    rec.name = r →
    p ≤ rec.cashIncome →
    inc.month = m0.month →
    inc.paidAmount = some p →
    inc.status = some "paid" →
    inc.paymentHistory
      = some [{ amount := p, receivedBy := some r, paymentMethod := some meth }] →
    convertToUnpaidOp { months := [m0], incomes := [rec] } m0.month none none
      = some { months := [convertMonthEntry m0 none none]
               incomes := [{ rec with cashIncome := rec.cashIncome - p }] } ∧
    ((postMergeOp now
        { months := [convertMonthEntry m0 none none]
          incomes := [{ rec with cashIncome := rec.cashIncome - p }] }
        [inc]).months.getD 0 dummyMonth).remainingAmount = some 0 ∧
    (postMergeOp now
        { months := [convertMonthEntry m0 none none]
          incomes := [{ rec with cashIncome := rec.cashIncome - p }] }
        [inc]).incomes = [rec] := by
  intro m0 inc rec now p f dc r meth hf hdc hp0 hrem hfull hp hrecv hrne
    hmeth hcash hrn hc hilabel hipaid hist hihist
  refine ⟨convertToUnpaidOp_eval m0 rec p r meth hp0 hp hrecv hrne hmeth
      hcash hrn hc,
    (postMergeOp_repay m0 inc rec now p f dc r meth hf hdc hfull hp hilabel
      hipaid hist hihist hrn).1,
    (postMergeOp_repay m0 inc rec now p f dc r meth hf hdc hfull hp hilabel
      hipaid hist hihist hrn).2⟩

/-- Witness for C7: the round trip on a 1500-rupee cash month received
by Ali whose record holds 2000 in cash. -/
theorem claim_C7_witness :
    convertToUnpaidOp
        { months := [c7paidMonth]
          incomes := [{ name := "Ali", cashIncome := 2000, bankIncome := 0 }] }
        "May 2025" none none
      = some { months := [convertMonthEntry c7paidMonth none none]
               incomes := [{ name := "Ali", cashIncome := 500, bankIncome := 0 }] } ∧
    (postMergeOp 7
        { months := [convertMonthEntry c7paidMonth none none]
          incomes := [{ name := "Ali", cashIncome := 500, bankIncome := 0 }] }
        [c7repayMonth]).incomes
      = [{ name := "Ali", cashIncome := 2000, bankIncome := 0 }] := by
  have h := claim_C7 c7paidMonth c7repayMonth
    { name := "Ali", cashIncome := 2000, bankIncome := 0 } 7 1500 1500 0
    "Ali" "Cash" rfl rfl rfl rfl (by norm_num) (by norm_num) rfl (by decide)
    rfl (by decide) rfl (by norm_num) rfl rfl rfl rfl
  exact ⟨by simpa using h.1, by simpa using h.2.2⟩

/-- Membership after an `updateFirst`: every record is an original or
the image of an original. -/
theorem mem_updateFirst {p : IncomeRec → Bool} {f : IncomeRec → IncomeRec} :
    ∀ {l : List IncomeRec} {x : IncomeRec},
      x ∈ updateFirst p f l → x ∈ l ∨ ∃ y ∈ l, x = f y := by
  intro l
  induction l with
  | nil => intro x h; simp [updateFirst] at h
  | cons r rs ih =>
    intro x h
    rw [updateFirst] at h
    by_cases hp : p r
    · rw [if_pos hp] at h
      rcases List.mem_cons.1 h with h1 | h1
      · exact Or.inr ⟨r, List.mem_cons_self r rs, h1⟩
      · exact Or.inl (List.mem_cons.2 (Or.inr h1))
    · rw [if_neg hp] at h
      rcases List.mem_cons.1 h with h1 | h1
      · exact Or.inl (List.mem_cons.2 (Or.inl h1))
      · rcases ih h1 with h2 | ⟨y, hy, h3⟩
        · exact Or.inl (List.mem_cons.2 (Or.inr h2))
        · exact Or.inr ⟨y, List.mem_cons_of_mem r hy, h3⟩

/-- The convert-to-unpaid debit keeps every income bucket nonnegative. -/
theorem convertDebit_nonneg (incomes : List IncomeRec) (r : String)
    (refunded : Int) (meth : String)
    (h : ∀ x ∈ incomes, 0 ≤ x.cashIncome ∧ 0 ≤ x.bankIncome) :
    ∀ x ∈ convertDebit incomes r refunded meth,
      0 ≤ x.cashIncome ∧ 0 ≤ x.bankIncome := by
  intro x hx
  unfold convertDebit at hx
  by_cases hc : (decide (refunded > 0) && !(r == "")) = true
  · rw [if_pos hc] at hx
    by_cases hany : incomes.any (fun rec => rec.name == r)
    · rw [if_pos hany] at hx
      rcases mem_updateFirst hx with h1 | ⟨y, hy, h2⟩
      · exact h x h1
      · subst h2
        by_cases hb : jsIncludes "bank" (lowerStr meth) = true
        · rw [if_pos hb]
          exact ⟨(h y hy).1, le_max_left 0 _⟩
        · rw [if_neg hb]
          exact ⟨le_max_left 0 _, (h y hy).2⟩
    · rw [if_neg hany] at hx
      exact h x hx
  · rw [if_neg hc] at hx
    exact h x hx

/-- One deletion-debit step keeps every income bucket nonnegative. -/
theorem deletionDebitOne_nonneg (incomes : List IncomeRec)
    (receiver : String) (cashDed bankDed : Int)
    (h : ∀ x ∈ incomes, 0 ≤ x.cashIncome ∧ 0 ≤ x.bankIncome) :
    ∀ x ∈ deletionDebitOne incomes receiver cashDed bankDed,
      0 ≤ x.cashIncome ∧ 0 ≤ x.bankIncome := by
  intro x hx
  unfold deletionDebitOne at hx
  by_cases hc : (decide (cashDed > 0) || decide (bankDed > 0)) = true
  · rw [if_pos hc] at hx
    by_cases hany : incomes.any (fun rec => ciMatch rec.name receiver)
    · rw [if_pos hany] at hx
      rcases mem_updateFirst hx with h1 | ⟨y, hy, h2⟩
      · exact h x h1
      · subst h2
        exact ⟨le_max_left 0 _, le_max_left 0 _⟩
    · rw [if_neg hany] at hx
      exact h x hx
  · rw [if_neg hc] at hx
    exact h x hx

/-- C8 counterexample: fee collector Sara's record stands at 0 cash, so
the availability guard falls back to the voucher-recalculated figure
(5000); a 3000 transfer then passes the guard but the unclamped `$inc`
drives her stored `cashIncome` to `-3000`. -/
theorem claim_C8_counterexample :
    transferOp [{ name := "Sara", cashIncome := 0, bankIncome := 0 }]
        5000 "Sara" 3000
      = some [{ name := "Sara", cashIncome := -3000, bankIncome := 0 },
              { name := "Admin", cashIncome := 3000, bankIncome := 0 }] ∧
    ¬ (0 : Int) ≤ (-3000 : Int) := by
  constructor
  · decide
  · norm_num

/-- C8 (amended): the convert-to-unpaid and subscriber-deletion debits
are clamped at zero and keep every receiver's `cashIncome` and
`bankIncome` nonnegative; the collections transfer, by contrast, is an
unclamped decrement guarded only by an availability pre-check and can
leave a negative `cashIncome`. -/
theorem claim_C8 :
    (∀ (incomes : List IncomeRec) (r : String) (refunded : Int)
        (meth : String),
      (∀ x ∈ incomes, 0 ≤ x.cashIncome ∧ 0 ≤ x.bankIncome) →
      ∀ x ∈ convertDebit incomes r refunded meth,
        0 ≤ x.cashIncome ∧ 0 ≤ x.bankIncome) ∧
    (∀ (incomes : List IncomeRec) (deds : List (String × Int × Int)),
      (∀ x ∈ incomes, 0 ≤ x.cashIncome ∧ 0 ≤ x.bankIncome) →
      ∀ x ∈ deletionDebit incomes deds,
        0 ≤ x.cashIncome ∧ 0 ≤ x.bankIncome) := by
  refine ⟨convertDebit_nonneg, ?_⟩
  intro incomes deds
  induction deds generalizing incomes with
  | nil =>
    intro h x hx
    rw [deletionDebit, List.foldl_nil] at hx
    exact h x hx
  | cons d ds ih =>
    intro h x hx
    rw [deletionDebit, List.foldl_cons] at hx
    exact ih (deletionDebitOne incomes d.1 d.2.1 d.2.2)
      (deletionDebitOne_nonneg incomes d.1 d.2.1 d.2.2 h) x hx

/-- Witness for C8: a clamped 500-rupee cash reversal against Ali's
100-rupee record stays nonnegative. -/
theorem claim_C8_witness :
    (convertDebit [{ name := "Ali", cashIncome := 100, bankIncome := 0 }]
        "Ali" 500 "Cash").all
      (fun x => decide (0 ≤ x.cashIncome) && decide (0 ≤ x.bankIncome))
      = true := by
  rw [List.all_eq_true]
  intro x hx
  have h := claim_C8.1 [{ name := "Ali", cashIncome := 100, bankIncome := 0 }]
    "Ali" 500 "Cash" (by decide) x hx
  simp [h.1, h.2]

/-- C9 counterexample: a batch of three expired active subscribers whose
middle member carries a Date-typed `expiryDate` (the selection parse
accepts it, the loop's `parseDate` calls `.split` on it and throws). The
run ends with the error logged once by the function-level catch, and the
third subscriber is left completely unprocessed, still `'paid'`. -/
theorem claim_C9_counterexample :
    (phaseBLoop 1 cToday [c9goodAccount1, c9badAccount, c9goodAccount2]).2
      = some "TypeError: dateStr.split is not a function" ∧
    (phaseBLoop 1 cToday
        [c9goodAccount1, c9badAccount, c9goodAccount2]).1.getD 2 dummyAccount
      = c9goodAccount2 ∧
    c9goodAccount2.user.status = "paid" ∧
    phaseBSelected cToday c9goodAccount2.user = true := by
  refine ⟨by decide, by decide, rfl, by decide⟩

/-- C9 (amended): the rollover loop sits inside a single function-level
try/catch, so the first per-subscriber error is caught and logged once
and the run returns normally with the earlier subscribers' updates
committed — but the failing subscriber and every subscriber after it in
the batch are left unprocessed for that run. -/
theorem claim_C9 :
    ∀ (now : Int) (today : Ymd) (pre post : List Account) (a : Account)
      (msg : String),
    (∀ b ∈ pre, accountStep now today b
        = Except.ok (accountStepD now today b)) →
    accountStep now today a = Except.error msg →
    phaseBLoop now today (pre ++ a :: post)
      = (pre.map (accountStepD now today) ++ a :: post, some msg) := by
  intro now today pre post a msg
  induction pre with
  | nil =>
    intro _ herr
    simp only [List.nil_append, List.map_nil, phaseBLoop, herr]
  | cons b bs ih =>
    intro hpre herr
    have hb := hpre b (List.mem_cons_self b bs)
    have hrest := ih (fun x hx => hpre x (List.mem_cons_of_mem b hx)) herr
    simp only [List.cons_append, phaseBLoop, hb, List.append_eq, hrest,
      List.map_cons]

/-- Witness for C9 on the concrete three-account batch. -/
theorem claim_C9_witness :
    phaseBLoop 5 cToday ([c9goodAccount1] ++ c9badAccount :: [c9goodAccount2])
      = ([c9goodAccount1].map (accountStepD 5 cToday)
          ++ c9badAccount :: [c9goodAccount2],
         some "TypeError: dateStr.split is not a function") :=
  claim_C9 5 cToday [c9goodAccount1] [c9goodAccount2] c9badAccount
    "TypeError: dateStr.split is not a function"
    (by intro b hb; rw [List.mem_singleton] at hb; subst hb; rfl)
    (by rfl)

/-- C10 (code bug): merging into a voucher that holds a superbalance
month does convert it to `'unpaid'` and persists the converted months,
but the handler then reads the undefined `updatedMonths`
(src/app.js:8014 — declared only inside the convert-to-unpaid handler at
src/app.js:10350), so execution stops with a ReferenceError: the
subscriber's status is never updated to `'unpaid'` and the request
fails with a 500 instead of completing successfully, contradicting the
claim and the code's own success log right below. -/
theorem claim_C10 :
    postVouchersHandler 0 { months := [c10superMonth], incomes := [] }
        "superbalance" [c10incomingMonth]
      = ({ months := postMergeMonths 0 [c10superMonth] [c10incomingMonth],
           incomes := [] },
         "superbalance",
         some "ReferenceError: updatedMonths is not defined") ∧
    ((postMergeMonths 0 [c10superMonth] [c10incomingMonth]).getD 0
        dummyMonth).status = some "unpaid" ∧
    ¬ ("superbalance" = "unpaid") := by
  refine ⟨by decide, by decide, by decide⟩

end TechnoServer
